import Mathlib

/-!
Verification of the utility components of `src/app.py` of the
blockchain-support-dashboard repository: the JSON extraction helper
`clean_json_output`, the RPC health probe `check_rpc_status`, the
composing operation `analyze_issue`, and the severity-label rendering
built on `sev_map`.

The Python stdlib pieces the helpers rely on are modelled explicitly:
`json.loads` as a strict recursive-descent JSON reader (`json_loads`),
and the regular expression search on line 48 of `src/app.py`
as a deterministic matcher (`reSearchFence`) equivalent to the
backtracking semantics of the pattern used there with `re.DOTALL`.
-/

namespace NodeGuard

/-- JSON values as produced by the Python `json` module. Integers become
`int`; numbers with a fractional or exponent part, and the non-standard
constants NaN, Infinity, -Infinity accepted by the stdlib decoder, are
kept as their lexeme in `numF` (their floating-point value is never
inspected by the code under verification). Objects are association lists
in Python dict insertion order, later duplicate keys overwriting the
value at the first position of the key. -/
inductive Json where
  | null : Json
  | bool (b : Bool) : Json
  | int (n : Int) : Json
  | numF (lexeme : String) : Json
  | str (s : String) : Json
  | arr (elems : List Json) : Json
  | obj (members : List (String × Json)) : Json

/-- Whitespace skipped by the stdlib JSON decoder: space, tab, newline,
carriage return. -/
def isJsonWs (c : Char) : Bool :=
  c = ' ' || c = '\t' || c = '\n' || c = '\r'

/-- Drop leading JSON whitespace. -/
def skipWs : List Char → List Char
  | [] => []
  | c :: rest => if isJsonWs c then skipWs rest else c :: rest

/-- If the first argument is a leading segment of the second, return the
remainder after it; otherwise none. -/
def stripLead : List Char → List Char → Option (List Char)
  | [], l => some l
  | _ :: _, [] => none
  | p :: ps, c :: cs => if c = p then stripLead ps cs else none

/-- Value of a hexadecimal digit. -/
def hexVal (c : Char) : Option Nat :=
  if '0' ≤ c ∧ c ≤ '9' then some (c.toNat - 48)
  else if 'a' ≤ c ∧ c ≤ 'f' then some (c.toNat - 87)
  else if 'A' ≤ c ∧ c ≤ 'F' then some (c.toNat - 55)
  else none

/-- Split a list into its maximal leading run of decimal digits and the
rest. -/
def digitSpan : List Char → List Char × List Char
  | [] => ([], [])
  | c :: rest =>
    if c.isDigit then
      let p := digitSpan rest
      (c :: p.1, p.2)
    else ([], c :: rest)

/-- Numeric value of a list of decimal digits. -/
def digitsToNat (ds : List Char) : Nat :=
  ds.foldl (fun n c => 10 * n + (c.toNat - 48)) 0

/-- Body of a JSON string literal, the opening quote already consumed.
Accumulates decoded characters in reverse in `acc`. Mirrors the strict
stdlib decoder: raw control characters below 0x20 are rejected, the eight
short escapes and 4-hex-digit unicode escapes are decoded, and a high
surrogate escape directly followed by a low surrogate escape is combined
into one code point. (Restriction: a lone surrogate escape, which Python
keeps as a lone surrogate character, is mapped through `Char.ofNat`,
which has no surrogate characters; no claim exercises this.)
Fuel-indexed; callers supply at least one fuel per remaining character. -/
def parseStringBody : Nat → List Char → List Char → Option (String × List Char)
  | 0, _, _ => none
  | _ + 1, _, [] => none
  | fuel + 1, acc, c :: rest =>
    if c = '"' then some (⟨acc.reverse⟩, rest)
    else if c = '\\' then
      match rest with
      | [] => none
      | e :: rest2 =>
        if e = '"' then parseStringBody fuel ('"' :: acc) rest2
        else if e = '\\' then parseStringBody fuel ('\\' :: acc) rest2
        else if e = '/' then parseStringBody fuel ('/' :: acc) rest2
        else if e = 'b' then parseStringBody fuel ('\x08' :: acc) rest2
        else if e = 'f' then parseStringBody fuel ('\x0c' :: acc) rest2
        else if e = 'n' then parseStringBody fuel ('\n' :: acc) rest2
        else if e = 'r' then parseStringBody fuel ('\r' :: acc) rest2
        else if e = 't' then parseStringBody fuel ('\t' :: acc) rest2
        else if e = 'u' then
          match rest2 with
          | h1 :: h2 :: h3 :: h4 :: rest3 =>
            match hexVal h1, hexVal h2, hexVal h3, hexVal h4 with
            | some a, some b, some c2, some d =>
              let n := ((a * 16 + b) * 16 + c2) * 16 + d
              if 0xd800 ≤ n ∧ n ≤ 0xdbff then
                match rest3 with
                | '\\' :: 'u' :: g1 :: g2 :: g3 :: g4 :: rest4 =>
                  match hexVal g1, hexVal g2, hexVal g3, hexVal g4 with
                  | some p, some q, some r, some s =>
                    let m := ((p * 16 + q) * 16 + r) * 16 + s
                    if 0xdc00 ≤ m ∧ m ≤ 0xdfff then
                      parseStringBody fuel
                        (Char.ofNat (0x10000 + (n - 0xd800) * 0x400 + (m - 0xdc00)) :: acc) rest4
                    else parseStringBody fuel (Char.ofNat n :: acc) rest3
                  | _, _, _, _ => parseStringBody fuel (Char.ofNat n :: acc) rest3
                | _ => parseStringBody fuel (Char.ofNat n :: acc) rest3
              else parseStringBody fuel (Char.ofNat n :: acc) rest3
            | _, _, _, _ => none
          | _ => none
        else none
    else if c.toNat < 0x20 then none
    else parseStringBody fuel (c :: acc) rest

/-- A JSON number at the head of the input, following the stdlib number
grammar: optional minus, integer part `0` or nonzero-led digits, then an
optional fraction and an optional exponent, each only consumed when
complete. A number with neither fraction nor exponent is a Python int;
otherwise its lexeme is kept as a float. -/
def parseNumber (l : List Char) : Option (Json × List Char) :=
  let sgn := match l with
    | '-' :: rest => (['-'], rest)
    | _ => (([] : List Char), l)
  match sgn.2 with
  | [] => none
  | c0 :: rest0 =>
    if c0.isDigit then
      let ip := if c0 = '0' then (['0'], rest0) else digitSpan sgn.2
      let fp := match ip.2 with
        | '.' :: r =>
          let fd := digitSpan r
          if fd.1 = [] then (([] : List Char), ip.2) else ('.' :: fd.1, fd.2)
        | _ => ([], ip.2)
      let ep := match fp.2 with
        | e :: r =>
          if e = 'e' ∨ e = 'E' then
            match r with
            | s :: r2 =>
              if s = '+' ∨ s = '-' then
                let ed := digitSpan r2
                if ed.1 = [] then (([] : List Char), fp.2) else (e :: s :: ed.1, ed.2)
              else
                let ed := digitSpan r
                if ed.1 = [] then ([], fp.2) else (e :: ed.1, ed.2)
            | [] => ([], fp.2)
          else ([], fp.2)
        | [] => ([], fp.2)
      if fp.1 = [] ∧ ep.1 = [] then
        let n : Int := Int.ofNat (digitsToNat ip.1)
        some (.int (if sgn.1 = [] then n else -n), ip.2)
      else
        some (.numF ⟨sgn.1 ++ ip.1 ++ fp.1 ++ ep.1⟩, ep.2)
    else none

/-- Insert a key/value pair into an object under Python dict assignment
semantics: an existing key keeps its position and gets the new value, a
new key is appended. -/
def objInsert (acc : List (String × Json)) (key : String) (v : Json) :
    List (String × Json) :=
  if acc.any (fun p => p.1 == key) then
    acc.map (fun p => if p.1 == key then (key, v) else p)
  else acc ++ [(key, v)]

mutual

/-- A JSON value at the head of the input (no leading whitespace).
Fuel-indexed; `json_loads` supplies ample fuel. -/
def parseVal : Nat → List Char → Option (Json × List Char)
  | 0, _ => none
  | _ + 1, [] => none
  | fuel + 1, c :: rest =>
    if c = '"' then
      match parseStringBody (rest.length + 1) [] rest with
      | some (s, r) => some (.str s, r)
      | none => none
    else if c = '\x7b' then
      parseObjMembers fuel true [] (skipWs rest)
    else if c = '[' then
      parseArrElems fuel true [] (skipWs rest)
    else
      match stripLead ['n', 'u', 'l', 'l'] (c :: rest) with
      | some r => some (.null, r)
      | none =>
      match stripLead ['t', 'r', 'u', 'e'] (c :: rest) with
      | some r => some (.bool true, r)
      | none =>
      match stripLead ['f', 'a', 'l', 's', 'e'] (c :: rest) with
      | some r => some (.bool false, r)
      | none =>
      match stripLead ['N', 'a', 'N'] (c :: rest) with
      | some r => some (.numF "NaN", r)
      | none =>
      match stripLead ['I', 'n', 'f', 'i', 'n', 'i', 't', 'y'] (c :: rest) with
      | some r => some (.numF "Infinity", r)
      | none =>
      match stripLead ['-', 'I', 'n', 'f', 'i', 'n', 'i', 't', 'y'] (c :: rest) with
      | some r => some (.numF "-Infinity", r)
      | none => parseNumber (c :: rest)

/-- Members of a JSON object, the opening brace and any following
whitespace already consumed. `allowEnd` is true only before the first
member, where an immediate closing brace yields the empty object. -/
def parseObjMembers : Nat → Bool → List (String × Json) → List Char →
    Option (Json × List Char)
  | 0, _, _, _ => none
  | fuel + 1, allowEnd, acc, l =>
    match l with
    | '\x7d' :: rest => if allowEnd then some (.obj acc, rest) else none
    | '"' :: rest =>
      match parseStringBody (rest.length + 1) [] rest with
      | none => none
      | some (key, r1) =>
        match skipWs r1 with
        | ':' :: r2 =>
          match parseVal fuel (skipWs r2) with
          | none => none
          | some (v, r3) =>
            match skipWs r3 with
            | ',' :: r4 => parseObjMembers fuel false (objInsert acc key v) (skipWs r4)
            | '\x7d' :: r4 => some (.obj (objInsert acc key v), r4)
            | _ => none
        | _ => none
    | _ => none

/-- Elements of a JSON array, the opening bracket and any following
whitespace already consumed. -/
def parseArrElems : Nat → Bool → List Json → List Char →
    Option (Json × List Char)
  | 0, _, _, _ => none
  | fuel + 1, allowEnd, acc, l =>
    match l with
    | ']' :: rest => if allowEnd then some (.arr acc.reverse, rest) else none
    | _ =>
      match parseVal fuel l with
      | none => none
      | some (v, r1) =>
        match skipWs r1 with
        | ',' :: r2 => parseArrElems fuel false (v :: acc) (skipWs r2)
        | ']' :: r2 => some (.arr (v :: acc).reverse, r2)
        | _ => none

end

/-- Model of `json.loads`: skip surrounding whitespace, read exactly one
JSON value spanning the whole input, fail otherwise. The fuel is ample:
the reader consumes at least one character per two fuel steps. -/
def json_loads (s : String) : Option Json :=
  match parseVal (4 * s.data.length + 16) (skipWs s.data) with
  | some (v, rest) => if skipWs rest = [] then some v else none
  | none => none

/-! ### The regular expression search of line 48

`re.search` with the pattern used on line 48 of `src/app.py` under
`re.DOTALL`: a triple-backtick fence, an optional literal json tag, then
optional whitespace, then a brace-delimited span matched lazily (any
character, including newlines), then optional whitespace and a closing
triple-backtick fence; the captured group is the brace-delimited span.
At a fixed start position the pattern is deterministic: the optional tag
and the greedy whitespace runs never need to backtrack because their
character sets are disjoint from what must follow, so the only choice
point is how far the lazy span extends, resolved to the shortest extent
whose closing brace is followed by optional whitespace and a fence.
`re.search` takes the leftmost start position that matches.
(Restriction: the whitespace class is modelled as ASCII whitespace; the
Python class also holds rare non-ASCII space characters.) -/

/-- The whitespace character class of the pattern, ASCII part. -/
def isPySpace (c : Char) : Bool :=
  c = ' ' || c = '\t' || c = '\n' || c = '\r' || c = '\x0b' || c = '\x0c'

/-- Drop a maximal run of pattern whitespace. -/
def dropPySpaces : List Char → List Char
  | [] => []
  | c :: rest => if isPySpace c then dropPySpaces rest else c :: rest

/-- The triple-backtick fence. -/
def fenceChars : List Char := ['\x60', '\x60', '\x60']

/-- After the closing brace of the candidate span: optional whitespace
then a closing fence. -/
def fenceAfterClose (l : List Char) : Bool :=
  (stripLead fenceChars (dropPySpaces l)).isSome

/-- Lazy scan for the end of the brace span: take the shortest body such
that the next character is a closing brace followed by whitespace and a
fence; a closing brace whose continuation fails is consumed as body text.
Returns the body (without the surrounding braces). -/
def lazyBrace (acc : List Char) : List Char → Option (List Char)
  | [] => none
  | c :: rest =>
    if c = '\x7d' ∧ fenceAfterClose rest then some acc.reverse
    else lazyBrace (c :: acc) rest

/-- Attempt the pattern at one start position; on success return the
captured group (braces included). -/
def matchFenceAt (l : List Char) : Option String :=
  match stripLead fenceChars l with
  | none => none
  | some r1 =>
    let r2 := match stripLead ['j', 's', 'o', 'n'] r1 with
      | some r => r
      | none => r1
    match dropPySpaces r2 with
    | '\x7b' :: rest =>
      match lazyBrace [] rest with
      | some body => some ⟨'\x7b' :: (body ++ ['\x7d'])⟩
      | none => none
    | _ => none

/-- `re.search`: try every start position from the left, return the first
match's captured group. -/
def reSearchFence : List Char → Option String
  | [] => none
  | c :: rest =>
    match matchFenceAt (c :: rest) with
    | some g => some g
    | none => reSearchFence rest

/-! ### clean_json_output (src/app.py lines 43-51) -/

/-- The Python exceptions `clean_json_output` and `analyze_issue` may
raise or handle: a ValueError carrying its message, or a JSONDecodeError
raised by `json.loads` inside the fallback branch. -/
inductive PyError where
  | valueError (msg : String) : PyError
  | jsonDecodeError : PyError

/-- Stringified form of the exception, as `str(e)` in `analyze_issue`.
The message text of a JSONDecodeError depends on the failure position
inside the document; it is modelled by a representative string, and no
claim depends on its content. -/
def pyErrorStr : PyError → String
  | .valueError msg => msg
  | .jsonDecodeError => "Expecting value: line 1 column 1 (char 0)"

/-- Which path of `clean_json_output` produced the value: the direct
`json.loads` of the whole input, or the fenced-block fallback. -/
inductive ExtractionPath where
  | primary : ExtractionPath
  | fallback : ExtractionPath

/-- `clean_json_output` (src/app.py lines 43-51), instrumented with the
path taken: try `json.loads` on the whole text; on failure search for a
fenced block and `json.loads` its captured span (a failure of that inner
parse propagates as a JSONDecodeError, uncaught by the function); with
no fenced block, raise ValueError with the message of line 51. -/
def clean_json_output_traced (raw_text : String) :
    Except PyError (Json × ExtractionPath) :=
  match json_loads raw_text with
  | some v => .ok (v, .primary)
  | none =>
    match reSearchFence raw_text.data with
    | some captured =>
      match json_loads captured with
      | some v => .ok (v, .fallback)
      | none => .error .jsonDecodeError
    | none => .error (.valueError "The AI response could not be parsed as JSON.")

/-- `clean_json_output` as the callers see it: the value or the raised
exception. -/
def clean_json_output (raw_text : String) : Except PyError Json :=
  (clean_json_output_traced raw_text).map Prod.fst

/-! ### check_rpc_status (src/app.py lines 54-69) -/

/-- Decimal digits of a natural number, as Python `str` formats a
nonnegative integer (also the value of an `f` format with no fractional
digits once rounding produced the integer). Fuel-indexed with ample
fuel. -/
def natDecimalAux : Nat → Nat → List Char → List Char
  | 0, _, acc => acc
  | fuel + 1, n, acc =>
    if n < 10 then Char.ofNat (48 + n) :: acc
    else natDecimalAux fuel (n / 10) (Char.ofNat (48 + n % 10) :: acc)

/-- Decimal representation of a natural number. -/
def natDecimal (n : Nat) : String :=
  ⟨natDecimalAux (n + 1) n []⟩

/-- The outcome of the single `requests.post` of `check_rpc_status`,
supplied by the environment: either the request raised some exception
(timeout, connection refused, DNS failure, TLS error, malformed URL...),
or a response arrived with the given HTTP status code after the given
elapsed wall-clock time. The elapsed time is modelled directly as the
whole number of milliseconds produced by the `.0f` rounding of
`(time.time() - start) * 1000`, a nonnegative quantity. -/
inductive HttpOutcome where
  | exn : HttpOutcome
  | response (status : Nat) (elapsedMs : Nat) : HttpOutcome

/-- `check_rpc_status` (src/app.py lines 54-69), instrumented with the
number of network requests issued: an empty URL short-circuits before
any request; otherwise exactly one request is made and every exception
it raises is folded into the connection-failed result. -/
def check_rpc_status_traced (url : String) (net : HttpOutcome) :
    (Bool × String) × Nat :=
  if url = "" then ((false, "No URL Configured"), 0)
  else
    match net with
    | .exn => ((false, "Connection Failed"), 1)
    | .response status ms =>
      if status = 200 then ((true, natDecimal ms ++ "ms"), 1)
      else ((false, "HTTP " ++ natDecimal status), 1)

/-- `check_rpc_status` as the callers see it. -/
def check_rpc_status (url : String) (net : HttpOutcome) : Bool × String :=
  (check_rpc_status_traced url net).1

/-- Decidable form of the pattern of digits followed by the millisecond
suffix: one or more decimal digits then the two characters m and s. -/
def matchesMsPattern (s : String) : Bool :=
  match s.data.reverse with
  | a :: b :: ds => a == 's' && b == 'm' && !ds.isEmpty && ds.all Char.isDigit
  | _ => false

/-! ### analyze_issue (src/app.py lines 72-114) -/

/-- The outcome of the chat-completion call inside `analyze_issue`,
supplied by the environment: either the call raised an exception whose
`str` is the given message, or it returned a message whose content is the
given text. -/
inductive UpstreamOutcome where
  | raises (msg : String) : UpstreamOutcome
  | returns (content : String) : UpstreamOutcome

/-- `analyze_issue` (src/app.py lines 72-114), the prompt assembly
abstracted away (it does not affect the result shape): the try block
spans both the chat-completion call and `clean_json_output`, so any
exception from either is caught and turned into a one-key error mapping
holding the stringified exception. -/
def analyze_issue (outcome : UpstreamOutcome) : Json :=
  match outcome with
  | .raises msg => .obj [("error", .str msg)]
  | .returns content =>
    match clean_json_output content with
    | .ok v => v
    | .error e => .obj [("error", .str (pyErrorStr e))]

/-! ### Severity rendering (src/app.py lines 221-242) -/

/-- The fixed severity map `sev_map` of line 223, as the lookup Python
performs with `sev_map.get`: integer keys 1 to 5. (Restriction: Python
dict lookup also matches a float or boolean numerically equal to a key,
such as 2.0 or True; such severities are modelled as missing from the
map. No claim exercises them.) -/
def sev_map_lookup (key : Json) : Option String :=
  match key with
  | .int 1 => some "🔴 Critical"
  | .int 2 => some "🟠 High"
  | .int 3 => some "🟡 Medium"
  | .int 4 => some "🔵 Low"
  | .int 5 => some "⚪ Info"
  | _ => none

/-- The severity fragment of the f-string on line 236:
`sev_map.get(report.get("severity", 3), 3)` rendered into the page. A
missing severity key defaults to the integer 3 before the map lookup; a
lookup miss falls back to the second argument of `sev_map.get`, the
integer 3, which the f-string renders as its decimal text. -/
def render_severity_label (report : List (String × Json)) : String :=
  let key := match report.lookup "severity" with
    | some v => v
    | none => Json.int 3
  match sev_map_lookup key with
  | some label => label
  | none => natDecimal 3

/-! ### Helper lemmas about decimal formatting -/

/-- A decimal digit character is a digit. -/
theorem digitChar_isDigit (d : Nat) (h : d < 10) :
    (Char.ofNat (48 + d)).isDigit = true := by
  interval_cases d <;> decide

/-- Every character `natDecimalAux` adds to a list of digits is a
digit. -/
theorem natDecimalAux_all_digits (fuel : Nat) :
    ∀ n acc, acc.all Char.isDigit = true →
      (natDecimalAux fuel n acc).all Char.isDigit = true := by
  induction fuel with
  | zero => intro n acc h; simpa [natDecimalAux] using h
  | succ f ih =>
    intro n acc h
    unfold natDecimalAux
    by_cases hn : n < 10
    · simp only [if_pos hn, List.all_cons, Bool.and_eq_true]
      exact ⟨digitChar_isDigit n hn, h⟩
    · simp only [if_neg hn]
      refine ih (n / 10) _ ?_
      simp only [List.all_cons, Bool.and_eq_true]
      exact ⟨digitChar_isDigit _ (Nat.mod_lt _ (by norm_num)), h⟩

/-- `natDecimalAux` never shrinks its accumulator. -/
theorem natDecimalAux_length_le (fuel : Nat) :
    ∀ n acc, acc.length ≤ (natDecimalAux fuel n acc).length := by
  induction fuel with
  | zero => intro n acc; simp [natDecimalAux]
  | succ f ih =>
    intro n acc
    unfold natDecimalAux
    by_cases hn : n < 10
    · simp [if_pos hn]
    · simp only [if_neg hn]
      calc acc.length ≤ (Char.ofNat (48 + n % 10) :: acc).length := by simp
        _ ≤ _ := ih (n / 10) _

/-- The decimal representation consists of digits only. -/
theorem natDecimal_all_digits (n : Nat) :
    (natDecimal n).data.all Char.isDigit = true :=
  natDecimalAux_all_digits (n + 1) n [] rfl

/-- The decimal representation is nonempty. -/
theorem natDecimal_ne_nil (n : Nat) : (natDecimal n).data ≠ [] := by
  show natDecimalAux (n + 1) n [] ≠ []
  unfold natDecimalAux
  by_cases hn : n < 10
  · simp [if_pos hn]
  · simp only [if_neg hn]
    intro hcontra
    have := natDecimalAux_length_le n (n / 10) [Char.ofNat (48 + n % 10)]
    rw [hcontra] at this
    simp at this

/-- The formatted latency always matches the digits-then-ms pattern. -/
theorem matchesMsPattern_natDecimal (n : Nat) :
    matchesMsPattern (natDecimal n ++ "ms") = true := by
  unfold matchesMsPattern
  rw [String.data_append]
  have hms : ("ms" : String).data = ['m', 's'] := rfl
  rw [hms, List.reverse_append]
  have hrev : (['m', 's'] : List Char).reverse = ['s', 'm'] := rfl
  rw [hrev]
  simp only [List.cons_append, List.nil_append]
  have hd := natDecimal_all_digits n
  have hne := natDecimal_ne_nil n
  simp [hd, hne]

/-! ### The claims -/

/-- Claim C1: every input that strictly parses as JSON, objects or not,
is returned whole through the primary path, the fallback never
invoked. -/
theorem c1_primary_path (raw : String) (v : Json)
    (h : json_loads raw = some v) :
    clean_json_output_traced raw = .ok (v, .primary) ∧
    clean_json_output raw = .ok v := by
  constructor
  · unfold clean_json_output_traced
    rw [h]
  · unfold clean_json_output clean_json_output_traced
    rw [h]
    rfl

/-- Witness for C1 at a valid JSON input that is not an object. -/
theorem c1_primary_path_witness :
    clean_json_output_traced "[1, 2]" = .ok (.arr [.int 1, .int 2], .primary) ∧
    clean_json_output "[1, 2]" = .ok (.arr [.int 1, .int 2]) :=
  c1_primary_path "[1, 2]" (.arr [.int 1, .int 2]) rfl

/-- Claim C2: when the strict parse fails and the fenced-block search
captures a span that strictly parses, that parse is returned through
the fallback path. -/
theorem c2_fallback (raw g : String) (v : Json)
    (h1 : json_loads raw = none)
    (h2 : reSearchFence raw.data = some g)
    (h3 : json_loads g = some v) :
    clean_json_output_traced raw = .ok (v, .fallback) ∧
    clean_json_output raw = .ok v := by
  constructor
  · simp only [clean_json_output_traced, h1, h2, h3]
  · simp only [clean_json_output, clean_json_output_traced, h1, h2, h3, Except.map]

/-- Witness for C2 at the input named by the claim. -/
theorem c2_fallback_witness :
    clean_json_output "Sure, here is the result:\n```json\n\x7b\"a\": 1\x7d\n```\n" =
      .ok (.obj [("a", .int 1)]) ∧
    clean_json_output_traced "Sure, here is the result:\n```json\n\x7b\"a\": 1\x7d\n```\n" =
      .ok (.obj [("a", .int 1)], .fallback) :=
  have h := c2_fallback "Sure, here is the result:\n```json\n\x7b\"a\": 1\x7d\n```\n"
    "\x7b\"a\": 1\x7d" (.obj [("a", .int 1)]) rfl rfl rfl
  ⟨h.2, h.1⟩

/-- Counterexample to claim C3 as stated: the error raised for an input
that is neither JSON nor fenced carries the message of line 51 of
src/app.py, not the message the claim quotes. -/
theorem c3_counterexample :
    clean_json_output "not json at all" =
      .error (.valueError "The AI response could not be parsed as JSON.") ∧
    "The AI response could not be parsed as JSON." ≠
      "the response could not be parsed as structured data" :=
  ⟨rfl, by decide⟩

/-- Claim C3 amended: when the strict parse fails, a failure always
propagates to the caller; with no fenced block it is the ValueError of
line 51 with its message, and when a captured span itself fails to
parse it is the JSONDecodeError of the inner json.loads. -/
theorem c3_failure_propagation (raw : String) (h : json_loads raw = none) :
    (reSearchFence raw.data = none →
      clean_json_output raw =
        .error (.valueError "The AI response could not be parsed as JSON.")) ∧
    (∀ g, reSearchFence raw.data = some g → json_loads g = none →
      clean_json_output raw = .error .jsonDecodeError) := by
  constructor
  · intro h2
    unfold clean_json_output clean_json_output_traced
    rw [h, h2]
    rfl
  · intro g h2 h3
    simp only [clean_json_output, clean_json_output_traced, h, h2, h3, Except.map]

/-- Witness for the amended C3: both failure shapes at concrete
inputs, among them the input named by the claim. -/
theorem c3_failure_propagation_witness :
    clean_json_output "not json at all" =
      .error (.valueError "The AI response could not be parsed as JSON.") ∧
    clean_json_output "pre\n```\n\x7bbad\x7d\n```" = .error .jsonDecodeError :=
  ⟨(c3_failure_propagation "not json at all" rfl).1 rfl,
   (c3_failure_propagation "pre\n```\n\x7bbad\x7d\n```" rfl).2 "\x7bbad\x7d" rfl rfl⟩

/-- Counterexample to claim C4 as stated: the detail reported when the
request raises is the capitalized text of line 69 of src/app.py, not
the lowercase text the claim quotes. -/
theorem c4_counterexample :
    check_rpc_status "https://example.com" HttpOutcome.exn =
      (false, "Connection Failed") ∧
    "Connection Failed" ≠ "connection failed" :=
  ⟨rfl, by decide⟩

/-- Claim C4 amended: the probe always returns a pair, and a raised
request error with a configured URL is folded into reachable false with
the connection-failed detail of line 69. -/
theorem c4_error_folding (url : String) (h : url ≠ "") :
    (∀ net : HttpOutcome, ∃ r : Bool × String, check_rpc_status url net = r) ∧
    check_rpc_status url HttpOutcome.exn = (false, "Connection Failed") := by
  refine ⟨fun net => ⟨_, rfl⟩, ?_⟩
  unfold check_rpc_status check_rpc_status_traced
  rw [if_neg h]

/-- Witness for the amended C4 at a concrete URL. -/
theorem c4_error_folding_witness :
    check_rpc_status "https://example.com/rpc" HttpOutcome.exn =
      (false, "Connection Failed") :=
  (c4_error_folding "https://example.com/rpc" (by decide)).2

/-- Counterexample to claim C5 as stated: the detail reported for an
empty URL is the text of line 57 of src/app.py, not the text the claim
quotes. -/
theorem c5_counterexample :
    check_rpc_status_traced "" HttpOutcome.exn =
      ((false, "No URL Configured"), 0) ∧
    "No URL Configured" ≠ "no endpoint configured" :=
  ⟨rfl, by decide⟩

/-- Claim C5 amended: an empty URL returns immediately with reachable
false and the detail of line 57, and the network layer is invoked zero
times, whatever it would have answered. -/
theorem c5_empty_url (net : HttpOutcome) :
    check_rpc_status_traced "" net = ((false, "No URL Configured"), 0) := rfl

/-- Claim C6: a 200 response yields reachable true with the elapsed
milliseconds rendered as a whole number followed by ms, matching the
digits-then-ms pattern. -/
theorem c6_latency_format (url : String) (ms : Nat) (h : url ≠ "") :
    check_rpc_status url (.response 200 ms) = (true, natDecimal ms ++ "ms") ∧
    matchesMsPattern (natDecimal ms ++ "ms") = true := by
  refine ⟨?_, matchesMsPattern_natDecimal ms⟩
  simp [check_rpc_status, check_rpc_status_traced, h]

/-- Witness for C6 at a concrete URL and latency. -/
theorem c6_latency_format_witness :
    check_rpc_status "https://node.example" (.response 200 842) =
      (true, "842ms") ∧
    matchesMsPattern "842ms" = true := by
  have h := c6_latency_format "https://node.example" 842 (by decide)
  exact ⟨h.1, h.2⟩

/-- Claim C7: a non-200 response yields reachable false with the status
code appended to the HTTP detail of line 67. -/
theorem c7_http_status (url : String) (status ms : Nat) (h : url ≠ "")
    (hs : status ≠ 200) :
    check_rpc_status url (.response status ms) =
      (false, "HTTP " ++ natDecimal status) := by
  unfold check_rpc_status check_rpc_status_traced
  rw [if_neg h]
  simp [hs]

/-- Witness for C7 at HTTP 500. -/
theorem c7_http_status_witness :
    check_rpc_status "https://node.example" (.response 500 7) =
      (false, "HTTP 500") :=
  c7_http_status "https://node.example" 500 7 (by decide) (by decide)

/-- Claim C8, code behavior at the failing input: an out-of-range
severity renders the integer default of `sev_map.get` as the text 3,
not the Medium label; a missing severity does render Medium, and
in-range severities render their labels. -/
theorem c8_severity_rendering :
    render_severity_label [("severity", Json.int 6)] = "3" ∧
    ("3" : String) ≠ "🟡 Medium" ∧
    render_severity_label [] = "🟡 Medium" ∧
    render_severity_label [("severity", Json.int 1)] = "🔴 Critical" ∧
    render_severity_label [("severity", Json.str "high")] = "3" :=
  ⟨rfl, by decide, rfl, rfl, rfl⟩

/-- Claim C9: for the fenced object nested one brace level deep, the
lazy span still captures the whole object, because the first candidate
closing brace is not followed by a fence, and the parsed full mapping is
returned through the fallback. -/
theorem c9_nested_braces :
    reSearchFence ("```json\n\x7b\"a\": \x7b\"b\": 1\x7d\x7d\n```".data) =
      some "\x7b\"a\": \x7b\"b\": 1\x7d\x7d" ∧
    clean_json_output_traced "```json\n\x7b\"a\": \x7b\"b\": 1\x7d\x7d\n```" =
      .ok (.obj [("a", .obj [("b", .int 1)])], .fallback) ∧
    clean_json_output "```json\n\x7b\"a\": \x7b\"b\": 1\x7d\x7d\n```" =
      .ok (.obj [("a", .obj [("b", .int 1)])]) :=
  ⟨rfl, rfl, rfl⟩

/-- Claim C10: `analyze_issue` never lets a failure escape; an upstream
exception and an unparseable response text both become a one-key error
mapping holding the stringified exception. -/
theorem c10_error_wrapping (o : UpstreamOutcome) :
    (∀ msg, o = .raises msg → analyze_issue o = .obj [("error", .str msg)]) ∧
    (∀ content e, o = .returns content → clean_json_output content = .error e →
      analyze_issue o = .obj [("error", .str (pyErrorStr e))]) := by
  constructor
  · rintro msg rfl
    rfl
  · rintro content e rfl h
    simp only [analyze_issue, h]

/-- Witness for C10 at a raising upstream call and at an unparseable
response. -/
theorem c10_error_wrapping_witness :
    analyze_issue (.raises "quota exceeded") =
      .obj [("error", .str "quota exceeded")] ∧
    analyze_issue (.returns "not json at all") =
      .obj [("error", .str "The AI response could not be parsed as JSON.")] :=
  ⟨(c10_error_wrapping (.raises "quota exceeded")).1 "quota exceeded" rfl,
   (c10_error_wrapping (.returns "not json at all")).2 "not json at all"
     (.valueError "The AI response could not be parsed as JSON.") rfl rfl⟩

end NodeGuard
